import Mathlib

/-!
# Verification of the MCP tool-server (`src/mcp.py`)

Shallow embedding of the tool handlers of `src/mcp.py` and of the
capability-registry / dispatcher core described by the specification.

Conventions of the embedding:

* Python dictionaries returned by handlers become association lists
  `List (String × JsonValue)` (`ToolResult`).
* JSON values (the results of `json.loads`) become the mutual inductive
  `JsonValue` / `JsonList` / `JsonObj`; JSON numbers are modelled as `Int`.
* Effects are made explicit: the workspace directory becomes a
  `FileSystem` value threaded through the file handlers, and everything
  the Python code obtains from the outside world (HTTP responses,
  exceptions raised by I/O or by `httpx`, `json.loads` outcomes,
  `random.choice`, file timestamps) is supplied by an `Oracle` of
  explicit outcomes.  A raised exception on an external call is an
  oracle outcome, so a handler that catches every exception becomes a
  total Lean function.
-/

namespace Mcp

mutual

/-- JSON values as produced by `json.loads`.  Numbers are modelled as
integers (`int` in the Python type analysis); this does not affect any
property proved below. -/
inductive JsonValue : Type where
  | null : JsonValue
  | bool (b : Bool) : JsonValue
  | num (n : Int) : JsonValue
  | str (s : String) : JsonValue
  | arr (items : JsonList) : JsonValue
  | obj (fields : JsonObj) : JsonValue

inductive JsonList : Type where
  | nil : JsonList
  | cons (hd : JsonValue) (tl : JsonList) : JsonList

inductive JsonObj : Type where
  | nil : JsonObj
  | cons (key : String) (val : JsonValue) (tl : JsonObj) : JsonObj

end

/-- Number of entries of a JSON array (`len` on a Python list). -/
def jsonListLen : JsonList → Nat
  | .nil => 0
  | .cons _ tl => 1 + jsonListLen tl

/-- Number of entries of a JSON object (`len` on a Python dict). -/
def jsonObjLen : JsonObj → Nat
  | .nil => 0
  | .cons _ _ tl => 1 + jsonObjLen tl

/-- The keys of a JSON object, in order (`list(data.keys())`). -/
def jsonObjKeys : JsonObj → List String
  | .nil => []
  | .cons k _ tl => k :: jsonObjKeys tl

mutual

/-- `_count_nested_levels(obj, level)` from `src/mcp.py`: returns `level`
for non-containers and empty containers, otherwise the maximum of the
recursive calls on the children at `level + 1`. -/
def countNestedLevels : JsonValue → Nat → Nat
  | .null, level => level
  | .bool _, level => level
  | .num _, level => level
  | .str _, level => level
  | .arr .nil, level => level
  | .arr (.cons v tl), level => listLevelsMax (JsonList.cons v tl) (level + 1)
  | .obj .nil, level => level
  | .obj (.cons k v tl), level => objLevelsMax (JsonObj.cons k v tl) (level + 1)

/-- `max(_count_nested_levels(item, level) for item in obj)` over a JSON
array; the `0` base of the fold is absorbed for the non-empty lists this
is called on. -/
def listLevelsMax : JsonList → Nat → Nat
  | .nil, _ => 0
  | .cons v tl, level => max (countNestedLevels v level) (listLevelsMax tl level)

/-- `max(_count_nested_levels(v, level) for v in obj.values())` over a
JSON object. -/
def objLevelsMax : JsonObj → Nat → Nat
  | .nil, _ => 0
  | .cons _ v tl, level => max (countNestedLevels v level) (objLevelsMax tl level)

end

mutual

/-- Nesting depth as the claim defines it: `0` for non-container values
and for empty dicts/lists, and `1` plus the maximum depth over the
children for every non-empty dict or list. -/
def depthSpec : JsonValue → Nat
  | .null => 0
  | .bool _ => 0
  | .num _ => 0
  | .str _ => 0
  | .arr .nil => 0
  | .arr (.cons v tl) => 1 + maxDepthList (JsonList.cons v tl)
  | .obj .nil => 0
  | .obj (.cons k v tl) => 1 + maxDepthObj (JsonObj.cons k v tl)

/-- Maximum of `depthSpec` over the elements of a JSON array. -/
def maxDepthList : JsonList → Nat
  | .nil => 0
  | .cons v tl => max (depthSpec v) (maxDepthList tl)

/-- Maximum of `depthSpec` over the values of a JSON object. -/
def maxDepthObj : JsonObj → Nat
  | .nil => 0
  | .cons _ v tl => max (depthSpec v) (maxDepthObj tl)

end

/-! ## Result dictionaries -/

/-- A Python dictionary returned by a tool handler: an association list
from string keys to JSON-representable values, in insertion order. -/
abbrev ToolResult := List (String × JsonValue)

/-- Value stored under a key of a result dictionary, if present. -/
def lookupKey : ToolResult → String → Option JsonValue
  | [], _ => none
  | (k, v) :: rest, key => if k == key then some v else lookupKey rest key

/-- Whether a result dictionary contains the given key. -/
def hasKey (r : ToolResult) (k : String) : Bool :=
  (lookupKey r k).isSome

/-- Whether the dictionary has a `success` key bound to a boolean. -/
def hasBoolSuccess (r : ToolResult) : Bool :=
  match lookupKey r "success" with
  | some (.bool _) => true
  | _ => false

/-- The boolean bound to `success` (`false` when absent or non-boolean). -/
def getSuccess (r : ToolResult) : Bool :=
  match lookupKey r "success" with
  | some (.bool b) => b
  | _ => false

/-- The string bound to `error` (`""` when absent or non-string). -/
def getErrorMsg (r : ToolResult) : String :=
  match lookupKey r "error" with
  | some (.str m) => m
  | _ => ""

/-- Whether the dictionary carries payload content: any key besides the
envelope bookkeeping keys `success`, `error` and `note`. -/
def hasPayloadContent (r : ToolResult) : Bool :=
  r.any fun kv => !(kv.1 == "success" || kv.1 == "error" || kv.1 == "note")

/-- The envelope discipline every handler of `src/mcp.py` obeys: a
boolean `success` key is present, an `error` key is present exactly when
`success` is false, and a successful result carries payload content. -/
def envelopeOk (r : ToolResult) : Bool :=
  hasBoolSuccess r && (hasKey r "error" == !getSuccess r) &&
    (!getSuccess r || hasPayloadContent r)

/-! ## Substring search (for checking messages and the info resource) -/

/-- Whether the first list is an initial segment of the second. -/
def beginsWith : List Char → List Char → Bool
  | [], _ => true
  | _ :: _, [] => false
  | c :: cs, d :: ds => c == d && beginsWith cs ds

/-- The remainder of `hay` after the first occurrence of `needle`, if
`needle` occurs in `hay` at all. -/
def dropAfterFirst (needle : List Char) : List Char → Option (List Char)
  | [] => if needle.isEmpty then some [] else none
  | c :: cs =>
    if beginsWith needle (c :: cs) then some ((c :: cs).drop needle.length)
    else dropAfterFirst needle cs

/-- Whether `needle` occurs contiguously inside `hay`. -/
def containsSub (needle hay : String) : Bool :=
  (dropAfterFirst needle.data hay.data).isSome

/-- Whether every name in the list occurs in the string, each one after
the previous one's first occurrence (left-to-right order). -/
def namesInOrder : List String → List Char → Bool
  | [], _ => true
  | n :: ns, hay =>
    match dropAfterFirst n.data hay with
    | none => false
    | some rest => namesInOrder ns rest

/-! ## The workspace filesystem and the file tools -/

/-- The contents of the `mcp_workspace` directory: an association list
from file name to file content.  `WORK_DIR / filename` renders as
`"mcp_workspace/" ++ filename`. -/
abbrev FileSystem := List (String × String)

/-- Content of the named workspace file, if it exists. -/
def fsGet : FileSystem → String → Option String
  | [], _ => none
  | (name, content) :: rest, key =>
    if name == key then some content else fsGet rest key

/-- Remove the named file (`Path.unlink`). -/
def fsRemove (fs : FileSystem) (key : String) : FileSystem :=
  fs.filter fun kv => !(kv.1 == key)

/-- Display path of a workspace file (`str(WORK_DIR / filename)`). -/
def workPath (filename : String) : String :=
  "mcp_workspace/" ++ filename

/-- `create_file(filename, content)` from `src/mcp.py`.  `ioFault` is
the oracle for an exception raised by the `open`/`write` section
(carrying `str(e)`); `none` means the write succeeds. -/
def create_file (fs : FileSystem) (filename content : String)
    (ioFault : Option String) : ToolResult × FileSystem :=
  if (fsGet fs filename).isSome then
    ([("success", .bool false),
      ("error", .str ("File " ++ filename ++ " already exists")),
      ("path", .str (workPath filename))], fs)
  else
    match ioFault with
    | some e =>
      ([("success", .bool false),
        ("error", .str ("Failed to create file: " ++ e))], fs)
    | none =>
      ([("success", .bool true),
        ("message", .str ("File " ++ filename ++ " created successfully")),
        ("path", .str (workPath filename)),
        ("size", .num content.length)], (filename, content) :: fs)

/-- `read_file(filename)` from `src/mcp.py`.  `ioFault` is the oracle
for an exception raised while opening/reading/stat-ing the file, and
`mtime` supplies `datetime.fromtimestamp(..).isoformat()` per file. -/
def read_file (fs : FileSystem) (filename : String)
    (ioFault : Option String) (mtime : String → String) : ToolResult :=
  match fsGet fs filename with
  | none =>
    [("success", .bool false),
     ("error", .str ("File " ++ filename ++ " does not exist"))]
  | some content =>
    match ioFault with
    | some e =>
      [("success", .bool false),
       ("error", .str ("Failed to read file: " ++ e))]
    | none =>
      [("success", .bool true),
       ("filename", .str filename),
       ("content", .str content),
       ("size", .num content.length),
       ("modified", .str (mtime filename))]

/-- One entry of the `files` list built by `list_files`. -/
def fileInfo (name content mtime : String) : JsonValue :=
  .obj (.cons "name" (.str name)
    (.cons "size" (.num content.length)
      (.cons "modified" (.str mtime)
        (.cons "path" (.str (workPath name)) .nil))))

/-- Package a Lean list of JSON values as a JSON array. -/
def toJsonList : List JsonValue → JsonList
  | [] => .nil
  | v :: rest => .cons v (toJsonList rest)

/-- `list_files()` from `src/mcp.py` over the modelled workspace (all
entries of the model are plain files). -/
def list_files (fs : FileSystem) (ioFault : Option String)
    (mtime : String → String) : ToolResult :=
  match ioFault with
  | some e =>
    [("success", .bool false),
     ("error", .str ("Failed to list files: " ++ e))]
  | none =>
    [("success", .bool true),
     ("files", .arr (toJsonList (fs.map fun kv => fileInfo kv.1 kv.2 (mtime kv.1)))),
     ("count", .num fs.length),
     ("workspace", .str "mcp_workspace")]

/-- `delete_file(filename)` from `src/mcp.py`.  `ioFault` is the oracle
for an exception raised by `unlink`. -/
def delete_file (fs : FileSystem) (filename : String)
    (ioFault : Option String) : ToolResult × FileSystem :=
  match fsGet fs filename with
  | none =>
    ([("success", .bool false),
      ("error", .str ("File " ++ filename ++ " does not exist"))], fs)
  | some _ =>
    match ioFault with
    | some e =>
      ([("success", .bool false),
        ("error", .str ("Failed to delete file: " ++ e))], fs)
    | none =>
      ([("success", .bool true),
        ("message", .str ("File " ++ filename ++ " deleted successfully"))],
       fsRemove fs filename)

/-! ## The external-API tools -/

/-- Outcome of an outbound HTTP call as the handler observes it:
either some exception raised inside the `try` block while contacting
the API or decoding its body (`fault`, carrying `str(e)`), or a
decoded response with its status code and parsed JSON body. -/
inductive HttpOutcome : Type where
  | fault (msg : String)
  | response (status : Nat) (body : JsonValue)

/-- Assoc lookup inside a JSON object. -/
def objFind : JsonObj → String → Option JsonValue
  | .nil, _ => none
  | .cons k v tl, key => if k == key then some v else objFind tl key

/-- Python's `d.get(key)` on a parsed JSON value: `none` models the
`AttributeError` raised when the receiver is not a dict; a missing key
yields Python `None` (`JsonValue.null`). -/
def pyDictGet : JsonValue → String → Option JsonValue
  | .obj fields, key => some ((objFind fields key).getD .null)
  | _, _ => none

/-- Python's `d.get(key, default)`; `none` again models the
`AttributeError` on a non-dict receiver. -/
def pyDictGetD : JsonValue → String → JsonValue → Option JsonValue
  | .obj fields, key, dflt => some ((objFind fields key).getD dflt)
  | _, _, _ => none

/-- Python's `xs[0]`: `none` models the `IndexError`/`TypeError` raised
on an empty list or a non-indexable value. -/
def pyIndexZero : JsonValue → Option JsonValue
  | .arr (.cons v _) => some v
  | _ => none

/-- The field extractions of `get_weather`'s `status_code == 200`
branch, in source order; any failure is an exception inside the `try`
block. -/
def weatherFields (data : JsonValue) :
    Option (JsonValue × JsonValue × JsonValue × JsonValue × JsonValue × JsonValue) := do
  let name ← pyDictGet data "name"
  let sys ← pyDictGetD data "sys" (.obj .nil)
  let country ← pyDictGet sys "country"
  let main1 ← pyDictGetD data "main" (.obj .nil)
  let temp ← pyDictGet main1 "temp"
  let weather ← pyDictGetD data "weather" (.arr (.cons (.obj .nil) .nil))
  let w0 ← pyIndexZero weather
  let desc ← pyDictGet w0 "description"
  let humid ← pyDictGet main1 "humidity"
  let pres ← pyDictGet main1 "pressure"
  pure (name, country, temp, desc, humid, pres)

/-- The success dictionary of `get_weather`'s live (HTTP 200) path. -/
def weatherLive (city country temp desc humid pres : JsonValue) : ToolResult :=
  [("success", .bool true), ("city", city), ("country", country),
   ("temperature", temp), ("description", desc),
   ("humidity", humid), ("pressure", pres)]

/-- The mock dictionary returned by `get_weather`'s `except` branch. -/
def weatherMock (city : String) : ToolResult :=
  [("success", .bool true), ("city", .str city), ("temperature", .num 22),
   ("description", .str "partly cloudy"), ("humidity", .num 65),
   ("pressure", .num 1013),
   ("note", .str "Demo data - API key needed for real data")]

/-- The result of `get_weather`'s `try` block, when no exception is
raised inside it (`none` = an exception was raised, the `except`
branch runs). -/
def weatherTry (out : HttpOutcome) : Option ToolResult :=
  match out with
  | .fault _ => none
  | .response status body =>
    if status == 200 then
      (weatherFields body).map fun f =>
        weatherLive f.1 f.2.1 f.2.2.1 f.2.2.2.1 f.2.2.2.2.1 f.2.2.2.2.2
    else
      some [("success", .bool false),
            ("error", .str ("Weather API error: " ++ toString status))]

/-- `get_weather(city)` from `src/mcp.py`: the `try` block's result if
it raises nothing, otherwise the mock data of the `except` branch. -/
def get_weather (city : String) (out : HttpOutcome) : ToolResult :=
  match weatherTry out with
  | some r => r
  | none => weatherMock city

/-- The field extractions of `get_random_quote`'s 200 branch. -/
def quoteFields (data : JsonValue) :
    Option (JsonValue × JsonValue × JsonValue) := do
  let content ← pyDictGet data "content"
  let author ← pyDictGet data "author"
  let tags ← pyDictGetD data "tags" (.arr .nil)
  pure (content, author, tags)

/-- The success dictionary of `get_random_quote`'s live path. -/
def quoteLive (content author tags : JsonValue) : ToolResult :=
  [("success", .bool true), ("quote", content),
   ("author", author), ("tags", tags)]

/-- The hardcoded fallback quotes of `get_random_quote`. -/
def fallbackQuotes : List (String × String) :=
  [("The only way to do great work is to love what you do.", "Steve Jobs"),
   ("Innovation distinguishes between a leader and a follower.", "Steve Jobs"),
   ("Life is what happens to you while you\x27re busy making other plans.",
    "John Lennon")]

/-- The fallback dictionary of `get_random_quote`'s `except` branch;
`randIx` is the oracle for `random.choice` (reduced modulo 3). -/
def quoteFallback (randIx : Nat) : ToolResult :=
  let selected := fallbackQuotes.getD (randIx % 3) ("", "")
  [("success", .bool true), ("quote", .str selected.1),
   ("author", .str selected.2),
   ("note", .str "Fallback quote - API unavailable")]

/-- The result of `get_random_quote`'s `try` block, when no exception
is raised inside it. -/
def quoteTry (out : HttpOutcome) : Option ToolResult :=
  match out with
  | .fault _ => none
  | .response status body =>
    if status == 200 then
      (quoteFields body).map fun f => quoteLive f.1 f.2.1 f.2.2
    else
      some [("success", .bool false),
            ("error", .str ("Quote API error: " ++ toString status))]

/-- `get_random_quote()` from `src/mcp.py`. -/
def get_random_quote (out : HttpOutcome) (randIx : Nat) : ToolResult :=
  match quoteTry out with
  | some r => r
  | none => quoteFallback randIx

/-! ## The JSON analyzer -/

/-- `type(data).__name__` for a parsed JSON value (numbers are
modelled as `int`). -/
def typeName : JsonValue → String
  | .null => "NoneType"
  | .bool _ => "bool"
  | .num _ => "int"
  | .str _ => "str"
  | .arr _ => "list"
  | .obj _ => "dict"

/-- Lift a list of strings into a JSON array of strings. -/
def strsToJsonList : List String → JsonList
  | [] => .nil
  | s :: rest => .cons (.str s) (strsToJsonList rest)

/-- The `analysis` dictionary built by `process_json_data`: `keys` is
the key list for dicts and Python `None` otherwise, `length` is `len`
for dicts/lists and `None` otherwise. -/
def jsonAnalysis (json_string : String) (data : JsonValue) : JsonValue :=
  .obj (.cons "type" (.str (typeName data))
    (.cons "size" (.num json_string.length)
      (.cons "keys"
        (match data with
         | .obj fields => .arr (strsToJsonList (jsonObjKeys fields))
         | _ => .null)
        (.cons "length"
          (match data with
           | .obj fields => .num (jsonObjLen fields)
           | .arr items => .num (jsonListLen items)
           | _ => .null)
          (.cons "nested_levels" (.num (countNestedLevels data 0)) .nil)))))

/-- `process_json_data(json_string)` from `src/mcp.py`.  The outcome of
`json.loads(json_string)` is supplied as the oracle `parsed`: `.ok v`
for a successful parse, `.error msg` for a `json.JSONDecodeError`
carrying `str(e)`.  Nothing after the parse can raise in the model, so
the generic `except Exception` branch is unreachable. -/
def process_json_data (json_string : String)
    (parsed : Except String JsonValue) : ToolResult :=
  match parsed with
  | .error msg =>
    [("success", .bool false),
     ("error", .str ("Invalid JSON: " ++ msg)),
     ("valid", .bool false)]
  | .ok data =>
    [("success", .bool true),
     ("data", data),
     ("analysis", jsonAnalysis json_string data),
     ("valid", .bool true)]

/-! ## The static server-info resource -/

/-- The names of the seven `@mcp.tool()` registrations of `src/mcp.py`,
in the order they appear in the file (decorator registration order). -/
def registeredTools : List String :=
  ["create_file", "read_file", "list_files", "delete_file",
   "get_weather", "get_random_quote", "process_json_data"]

/-- `get_server_info()` from `src/mcp.py`: the static information page,
with the two dynamic splices (`WORK_DIR` and `datetime.now()`) as
parameters. -/
def get_server_info (workspace started : String) : String :=
  "\n    Advanced MCP Server Information\n    ==============================\n    \n    Server Name: Advanced File & API Server\n    Workspace: "
    ++ workspace
    ++ "\n    Started: "
    ++ started
    ++ "\n    \n    Available Tools:\n    - File Operations: create_file, read_file, list_files, delete_file\n    - External APIs: get_weather, get_random_quote\n    - Data Processing: process_json_data\n    \n    Available Resources:\n    - server://info - This information page\n    \n    Available Prompts:\n    - data_analysis_prompt - For analyzing data files\n    - api_integration_prompt - For API integration guidance\n    "

/-! ## Invocation of the registered tools -/

/-- An invocation of one of the seven registered tools with its
arguments. -/
inductive ToolCall : Type where
  | createFile (filename content : String)
  | readFile (filename : String)
  | listFiles
  | deleteFile (filename : String)
  | getWeather (city : String)
  | getRandomQuote
  | processJsonData (json_string : String)

/-- Everything the handlers obtain from outside the process, fixed per
invocation: HTTP outcomes, `random.choice`, `json.loads`, I/O faults
and file timestamps. -/
structure Oracle : Type where
  weatherHttp : HttpOutcome
  quoteHttp : HttpOutcome
  quoteRand : Nat
  jsonLoads : String → Except String JsonValue
  createFault : Option String
  readFault : Option String
  listFault : Option String
  deleteFault : Option String
  mtime : String → String

/-- Dispatch of one tool call: runs the handler of `src/mcp.py` on the
current workspace state under the given oracle, returning the result
dictionary and the new workspace state.  Every handler is a total
function: no exception escapes to the caller. -/
def serverInvoke (o : Oracle) (fs : FileSystem) : ToolCall → ToolResult × FileSystem
  | .createFile filename content => create_file fs filename content o.createFault
  | .readFile filename => (read_file fs filename o.readFault o.mtime, fs)
  | .listFiles => (list_files fs o.listFault o.mtime, fs)
  | .deleteFile filename => delete_file fs filename o.deleteFault
  | .getWeather city => (get_weather city o.weatherHttp, fs)
  | .getRandomQuote => (get_random_quote o.quoteHttp o.quoteRand, fs)
  | .processJsonData s => (process_json_data s (o.jsonLoads s), fs)

/-- A concrete oracle used to instantiate closed statements. -/
def oracle0 : Oracle where
  weatherHttp := .fault "connection refused"
  quoteHttp := .fault "connection refused"
  quoteRand := 0
  jsonLoads := fun _ => .error "Expecting value: line 1 column 1 (char 0)"
  createFault := none
  readFault := none
  listFault := none
  deleteFault := none
  mtime := fun _ => "2025-01-01T00:00:00"

/-! ## The capability registry and dispatcher of the specification

The registry, argument validation and dispatch live in the excluded
protocol framework (`FastMCP`), not in `src/mcp.py`; they are modelled
from the specification's words (sections 3, 4.1 and 4.2). -/

/-- Modelled from the spec: the structured error record of an
Envelope, `\x7bkind, message\x7d`. -/
structure ErrorInfo : Type where
  kind : String
  message : String

/-- Modelled from the spec: the uniform result shape every operation
returns — `success`, `payload` present iff success, `error` present iff
failure, optional `note`. -/
structure Envelope : Type where
  success : Bool
  payload : Option JsonValue
  error : Option ErrorInfo
  note : Option String

/-- Modelled from the spec: the declared kind of one parameter. -/
inductive ParamKind : Type where
  | string
  | number
  | boolean
  | object
  | array

/-- Modelled from the spec: one entry of a descriptor's ordered
`parameterSchema`: `(paramName, required, kind)`. -/
structure ParamSpec : Type where
  name : String
  required : Bool
  kind : ParamKind

/-- Argument map of an invocation request. -/
abbrev ArgMap := List (String × JsonValue)

/-- Modelled from the spec: the outcome of running a handler — a normal
return value, a designated transient fault, or any other fault. -/
inductive HandlerOutcome : Type where
  | ok (value : JsonValue)
  | transientFault (msg : String)
  | fault (msg : String)

/-- Modelled from the spec: metadata for one registered operation. -/
structure Descriptor : Type where
  name : String
  parameterSchema : List ParamSpec
  handler : ArgMap → HandlerOutcome
  fallback : Option (ArgMap → HandlerOutcome)

/-- Modelled from the spec: the registry mapping, kept in registration
order. -/
abbrev Registry := List Descriptor

/-- Modelled from the spec: registration-time errors. -/
inductive RegError : Type where
  | duplicateCapability

/-- Modelled from the spec: `register(descriptor)` as a state
transition — fails with `duplicate_capability` when the name is already
present, leaving the mapping untouched; otherwise appends. -/
def register (reg : Registry) (d : Descriptor) : Registry × Option RegError :=
  if reg.any (fun d0 => d0.name == d.name) then
    (reg, some .duplicateCapability)
  else
    (reg ++ [d], none)

/-- Modelled from the spec: `list()`, the descriptor names in
registration order. -/
def registryNames (reg : Registry) : List String :=
  reg.map (·.name)

/-- Modelled from the spec: `lookup(name)`. -/
def lookupDescr (reg : Registry) (n : String) : Option Descriptor :=
  reg.find? (fun d => d.name == n)

/-- Modelled from the spec (§4.2 step 2, §4.4): kind check of one
declared parameter against an actual value — numbers accept any
numeric, object any mapping. -/
def kindMatches : ParamKind → JsonValue → Bool
  | .string, .str _ => true
  | .number, .num _ => true
  | .boolean, .bool _ => true
  | .object, .obj _ => true
  | .array, .arr _ => true
  | _, _ => false

/-- Value of an argument in the request's argument map. -/
def argLookup : ArgMap → String → Option JsonValue
  | [], _ => none
  | (k, v) :: rest, key => if k == key then some v else argLookup rest key

/-- Verdict on one schema entry: `some name` when the entry is
offending — a required parameter that is absent, or a present
parameter whose value has the wrong kind. -/
def paramVerdict (args : ArgMap) (p : ParamSpec) : Option String :=
  match argLookup args p.name with
  | none => if p.required then some p.name else none
  | some v => if kindMatches p.kind v then none else some p.name

/-- Modelled from the spec: the first offending parameter of the
schema, in schema order. -/
def firstOffending (schema : List ParamSpec) (args : ArgMap) : Option String :=
  schema.findSome? (paramVerdict args)

/-- Whether the argument map omits some required parameter of the
schema. -/
def missingRequired (schema : List ParamSpec) (args : ArgMap) : Bool :=
  schema.any fun p => p.required && (argLookup args p.name).isNone

/-- Modelled from the spec: an invocation request, `operation` name
plus argument map. -/
structure Request : Type where
  operation : String
  arguments : ArgMap

/-- An error Envelope with the given kind and message. -/
def errEnvelope (kind msg : String) : Envelope :=
  { success := false, payload := none,
    error := some { kind := kind, message := msg }, note := none }

/-- Modelled from the spec: `invoke(request) -> Envelope` (§4.2) —
registry lookup, argument validation, handler execution, fault
normalization and the fallback path, in that order. -/
def invoke (reg : Registry) (req : Request) : Envelope :=
  match lookupDescr reg req.operation with
  | none => errEnvelope "unknown_operation" ("Unknown operation: " ++ req.operation)
  | some d =>
    match firstOffending d.parameterSchema req.arguments with
    | some p => errEnvelope "invalid_arguments" ("Invalid argument: " ++ p)
    | none =>
      match d.handler req.arguments with
      | .ok v => { success := true, payload := some v, error := none, note := none }
      | .fault m => errEnvelope "handler_error" m
      | .transientFault m =>
        match d.fallback with
        | none => errEnvelope "handler_error" m
        | some fb =>
          match fb req.arguments with
          | .ok v =>
            { success := true, payload := some v, error := none,
              note := some "served from fallback" }
          | .fault m2 => errEnvelope "fallback_failed" m2
          | .transientFault m2 => errEnvelope "fallback_failed" m2

/-- The `"echo"` capability of the specification's concrete test
scenario (§8): one required string parameter `"text"`, handler echoing
it back. -/
def echoDescr : Descriptor where
  name := "echo"
  parameterSchema := [{ name := "text", required := true, kind := .string }]
  handler := fun args =>
    .ok (.obj (.cons "echoed" ((argLookup args "text").getD .null) .nil))
  fallback := none

/-! # Theorems -/

/-! ## Nesting depth (`_count_nested_levels`) -/

theorem nat_max_add_left (a b c : Nat) : max (a + b) (a + c) = a + max b c := by
  omega

mutual

/-- The recursion of `_count_nested_levels` simply adds the start level
to the intrinsic nesting depth of the value. -/
theorem countNestedLevels_eq_add_depth :
    ∀ (v : JsonValue) (l : Nat), countNestedLevels v l = l + depthSpec v
  | .null, l => by simp [countNestedLevels, depthSpec]
  | .bool _, l => by simp [countNestedLevels, depthSpec]
  | .num _, l => by simp [countNestedLevels, depthSpec]
  | .str _, l => by simp [countNestedLevels, depthSpec]
  | .arr .nil, l => by simp [countNestedLevels, depthSpec]
  | .arr (.cons v tl), l => by
      rw [countNestedLevels, depthSpec, listLevelsMax_cons_eq v tl (l + 1)]
      omega
  | .obj .nil, l => by simp [countNestedLevels, depthSpec]
  | .obj (.cons k v tl), l => by
      rw [countNestedLevels, depthSpec, objLevelsMax_cons_eq k v tl (l + 1)]
      omega
termination_by v _ => sizeOf v

/-- On a non-empty array the fold of `listLevelsMax` is the start level
plus the maximum child depth. -/
theorem listLevelsMax_cons_eq :
    ∀ (v : JsonValue) (tl : JsonList) (l : Nat),
      listLevelsMax (JsonList.cons v tl) l = l + maxDepthList (JsonList.cons v tl)
  | v, .nil, l => by
      rw [listLevelsMax, listLevelsMax, maxDepthList, maxDepthList,
        countNestedLevels_eq_add_depth v l]
      omega
  | v, .cons w ys, l => by
      rw [listLevelsMax, maxDepthList, countNestedLevels_eq_add_depth v l,
        listLevelsMax_cons_eq w ys l]
      exact nat_max_add_left l (depthSpec v) (maxDepthList (JsonList.cons w ys))
termination_by v tl _ => sizeOf v + sizeOf tl + 1

/-- On a non-empty object the fold of `objLevelsMax` is the start level
plus the maximum child depth. -/
theorem objLevelsMax_cons_eq :
    ∀ (k : String) (v : JsonValue) (tl : JsonObj) (l : Nat),
      objLevelsMax (JsonObj.cons k v tl) l = l + maxDepthObj (JsonObj.cons k v tl)
  | _, v, .nil, l => by
      rw [objLevelsMax, objLevelsMax, maxDepthObj, maxDepthObj,
        countNestedLevels_eq_add_depth v l]
      omega
  | _, v, .cons k2 w ys, l => by
      rw [objLevelsMax, maxDepthObj, countNestedLevels_eq_add_depth v l,
        objLevelsMax_cons_eq k2 w ys l]
      exact nat_max_add_left l (depthSpec v) (maxDepthObj (JsonObj.cons k2 w ys))
termination_by _ v tl _ => sizeOf v + sizeOf tl + 1

end

/-- **C7.** Nesting-depth computation is well-defined and correct: for
every finite JSON value `v` as produced by `json.loads`,
`_count_nested_levels(v, 0)` terminates (it is a total Lean function)
and equals the nesting depth of `v` — `0` for non-container values and
for empty dicts/lists, and `1` plus the maximum depth over the children
for every non-empty dict or list. -/
theorem count_nested_levels_correct (v : JsonValue) :
    countNestedLevels v 0 = depthSpec v := by
  simpa using countNestedLevels_eq_add_depth v 0

/-! ## Envelope discipline of the handlers -/

theorem envelopeOk_create_file (fs : FileSystem) (fn content : String)
    (fault : Option String) : envelopeOk (create_file fs fn content fault).1 = true := by
  unfold create_file
  split
  · rfl
  · cases fault <;> rfl

theorem envelopeOk_read_file (fs : FileSystem) (fn : String)
    (fault : Option String) (mtime : String → String) :
    envelopeOk (read_file fs fn fault mtime) = true := by
  unfold read_file
  cases fsGet fs fn
  · rfl
  · cases fault <;> rfl

theorem envelopeOk_list_files (fs : FileSystem) (fault : Option String)
    (mtime : String → String) : envelopeOk (list_files fs fault mtime) = true := by
  unfold list_files
  cases fault <;> rfl

theorem envelopeOk_delete_file (fs : FileSystem) (fn : String)
    (fault : Option String) : envelopeOk (delete_file fs fn fault).1 = true := by
  unfold delete_file
  cases fsGet fs fn
  · rfl
  · cases fault <;> rfl

theorem envelopeOk_weatherLive (a b c d e f : JsonValue) :
    envelopeOk (weatherLive a b c d e f) = true := rfl

theorem envelopeOk_get_weather (city : String) (out : HttpOutcome) :
    envelopeOk (get_weather city out) = true := by
  unfold get_weather weatherTry
  cases out with
  | fault m => rfl
  | response status body =>
    cases hs : status == 200 with
    | false => simp only [hs, Bool.false_eq_true, if_false]; rfl
    | true =>
      simp only [hs, if_true]
      cases hw : weatherFields body with
      | none => rfl
      | some f => exact envelopeOk_weatherLive f.1 f.2.1 f.2.2.1 f.2.2.2.1 f.2.2.2.2.1 f.2.2.2.2.2

theorem envelopeOk_quoteLive (a b c : JsonValue) :
    envelopeOk (quoteLive a b c) = true := rfl

theorem envelopeOk_get_random_quote (out : HttpOutcome) (randIx : Nat) :
    envelopeOk (get_random_quote out randIx) = true := by
  unfold get_random_quote quoteTry
  cases out with
  | fault m => rfl
  | response status body =>
    cases hs : status == 200 with
    | false => simp only [hs, Bool.false_eq_true, if_false]; rfl
    | true =>
      simp only [hs, if_true]
      cases hq : quoteFields body with
      | none => rfl
      | some f => exact envelopeOk_quoteLive f.1 f.2.1 f.2.2

theorem envelopeOk_process_json_data (s : String)
    (parsed : Except String JsonValue) :
    envelopeOk (process_json_data s parsed) = true := by
  cases parsed <;> rfl

/-- Every dispatch of a registered tool returns a dictionary obeying
the envelope discipline. -/
theorem envelopeOk_serverInvoke (o : Oracle) (fs : FileSystem) (c : ToolCall) :
    envelopeOk (serverInvoke o fs c).1 = true := by
  cases c with
  | createFile fn content => exact envelopeOk_create_file fs fn content o.createFault
  | readFile fn => exact envelopeOk_read_file fs fn o.readFault o.mtime
  | listFiles => exact envelopeOk_list_files fs o.listFault o.mtime
  | deleteFile fn => exact envelopeOk_delete_file fs fn o.deleteFault
  | getWeather city => exact envelopeOk_get_weather city o.weatherHttp
  | getRandomQuote => exact envelopeOk_get_random_quote o.quoteHttp o.quoteRand
  | processJsonData s => exact envelopeOk_process_json_data s (o.jsonLoads s)

/-- **C1.** Every registered operation is total at the invocation
boundary: each handler is a total function of its input, the workspace
state and the oracle of external outcomes (every exception of the
source is an oracle outcome recovered inside the handler, so nothing
propagates to the caller), and its result dictionary always contains a
boolean `success` key. -/
theorem handlers_total_with_success_key (o : Oracle) (fs : FileSystem)
    (c : ToolCall) : hasBoolSuccess (serverInvoke o fs c).1 = true := by
  have h := envelopeOk_serverInvoke o fs c
  simp only [envelopeOk, Bool.and_eq_true] at h
  exact h.1.1

/-- **C2 (counterexample).** Envelope exclusivity fails as stated: when
the target file already exists, `create_file` returns `success = false`
with an `error` field *and* payload content (the `path` key), so
"payload content iff `success` is true" is false at this input. -/
theorem create_file_error_payload_coexist :
    ¬ (hasPayloadContent
        (serverInvoke oracle0 [("notes.txt", "old")] (.createFile "notes.txt" "new")).1 = true ↔
       getSuccess
        (serverInvoke oracle0 [("notes.txt", "old")] (.createFile "notes.txt" "new")).1 = true) := by
  decide

/-- **C2 (amended).** For every operation and input, the result
contains an `error` field iff `success` is false, and a successful
result always carries payload content and no error; but payload
content and `error` are not mutually exclusive — some failure results
carry contextual payload fields alongside the error (`create_file`
returns the target `path` when the file exists, `process_json_data`
returns `valid = false` on a parse error). -/
theorem envelope_error_iff_failure (o : Oracle) (fs : FileSystem) (c : ToolCall) :
    hasKey (serverInvoke o fs c).1 "error" = !getSuccess (serverInvoke o fs c).1 ∧
    (getSuccess (serverInvoke o fs c).1 = true →
      hasPayloadContent (serverInvoke o fs c).1 = true) := by
  have h := envelopeOk_serverInvoke o fs c
  simp only [envelopeOk, Bool.and_eq_true, beq_iff_eq] at h
  refine ⟨h.1.2, fun hs => ?_⟩
  have h2 := h.2
  rw [hs] at h2
  simpa using h2

theorem envelope_error_iff_failure_witness :
    hasKey (serverInvoke oracle0 [] (.createFile "a.txt" "hi")).1 "error" =
      !getSuccess (serverInvoke oracle0 [] (.createFile "a.txt" "hi")).1 ∧
    hasPayloadContent (serverInvoke oracle0 [] (.createFile "a.txt" "hi")).1 = true :=
  ⟨(envelope_error_iff_failure oracle0 [] (.createFile "a.txt" "hi")).1,
   (envelope_error_iff_failure oracle0 [] (.createFile "a.txt" "hi")).2 (by decide)⟩

/-- **C6.** Determinism under repetition: dispatching any tool call a
second time in sequence yields an identical result whenever the first
dispatch left the shared state unchanged (no shared mutable state
between the calls); in particular two sequential dispatches of
`process_json_data` on the same string return identical result
dictionaries unconditionally, since the handler neither reads nor
writes the workspace. -/
theorem process_json_data_repeat_identical :
    (∀ (o : Oracle) (fs : FileSystem) (c : ToolCall),
      (serverInvoke o fs c).2 = fs →
        serverInvoke o (serverInvoke o fs c).2 c = serverInvoke o fs c) ∧
    (∀ (o : Oracle) (fs : FileSystem) (s : String),
      serverInvoke o (serverInvoke o fs (.processJsonData s)).2 (.processJsonData s) =
        serverInvoke o fs (.processJsonData s)) := by
  constructor
  · intro o fs c h
    rw [h]
  · intro o fs s
    rfl

theorem process_json_data_repeat_identical_witness :
    serverInvoke oracle0
        (serverInvoke oracle0 [] (.processJsonData "null")).2 (.processJsonData "null") =
      serverInvoke oracle0 [] (.processJsonData "null") :=
  process_json_data_repeat_identical.1 oracle0 [] (.processJsonData "null") rfl

/-- **C8.** Parse-iff success for the JSON analyzer: with `parsed` the
outcome of `json.loads(json_string)`, a successful parse of value `v`
yields `success = true`, `data = v` and `valid = true`, while a parse
failure yields `success = false`, `valid = false` and an error message
beginning with `"Invalid JSON"`. -/
theorem process_json_data_parse_iff (s : String)
    (parsed : Except String JsonValue) :
    (∀ v, parsed = .ok v →
      getSuccess (process_json_data s parsed) = true ∧
      lookupKey (process_json_data s parsed) "data" = some v ∧
      lookupKey (process_json_data s parsed) "valid" = some (.bool true)) ∧
    (∀ e, parsed = .error e →
      getSuccess (process_json_data s parsed) = false ∧
      lookupKey (process_json_data s parsed) "valid" = some (.bool false) ∧
      beginsWith "Invalid JSON".data (getErrorMsg (process_json_data s parsed)).data = true) := by
  constructor
  · rintro v rfl
    exact ⟨rfl, rfl, rfl⟩
  · rintro e rfl
    exact ⟨rfl, rfl, rfl⟩

theorem process_json_data_parse_iff_witness :
    (getSuccess (process_json_data "[1, 2]"
        (.ok (.arr (.cons (.num 1) (.cons (.num 2) .nil))))) = true ∧
      lookupKey (process_json_data "[1, 2]"
        (.ok (.arr (.cons (.num 1) (.cons (.num 2) .nil))))) "data" =
        some (.arr (.cons (.num 1) (.cons (.num 2) .nil))) ∧
      lookupKey (process_json_data "[1, 2]"
        (.ok (.arr (.cons (.num 1) (.cons (.num 2) .nil))))) "valid" =
        some (.bool true)) ∧
    (getSuccess (process_json_data "oops"
        (.error "Expecting value: line 1 column 1 (char 0)")) = false ∧
      lookupKey (process_json_data "oops"
        (.error "Expecting value: line 1 column 1 (char 0)")) "valid" =
        some (.bool false) ∧
      beginsWith "Invalid JSON".data
        (getErrorMsg (process_json_data "oops"
          (.error "Expecting value: line 1 column 1 (char 0)"))).data = true) :=
  ⟨(process_json_data_parse_iff "[1, 2]"
      (.ok (.arr (.cons (.num 1) (.cons (.num 2) .nil))))).1
      (.arr (.cons (.num 1) (.cons (.num 2) .nil))) rfl,
   (process_json_data_parse_iff "oops"
      (.error "Expecting value: line 1 column 1 (char 0)")).2
      "Expecting value: line 1 column 1 (char 0)" rfl⟩

/-! ## `create_file` and the workspace state -/

/-- A needle occurring in `ys` also occurs in `xs ++ ys`. -/
theorem dropAfterFirst_append_isSome (needle ys : List Char)
    (h : (dropAfterFirst needle ys).isSome = true) :
    ∀ xs, (dropAfterFirst needle (xs ++ ys)).isSome = true
  | [] => h
  | c :: cs => by
    rw [List.cons_append, dropAfterFirst]
    split
    · rfl
    · exact dropAfterFirst_append_isSome needle ys h cs

/-- **C9.** `create_file` never overwrites: when the target file
already exists in the workspace, the result is `success = false` with
an error message mentioning that the file already exists, and the
workspace is returned unchanged. -/
theorem create_file_existing_unchanged (fs : FileSystem)
    (fn content old : String) (fault : Option String)
    (h : fsGet fs fn = some old) :
    getSuccess (create_file fs fn content fault).1 = false ∧
    containsSub "already exists" (getErrorMsg (create_file fs fn content fault).1) = true ∧
    (create_file fs fn content fault).2 = fs := by
  have hc : create_file fs fn content fault =
      ([("success", .bool false),
        ("error", .str ("File " ++ fn ++ " already exists")),
        ("path", .str (workPath fn))], fs) := by
    unfold create_file
    rw [h]
    exact if_pos rfl
  rw [hc]
  refine ⟨rfl, ?_, rfl⟩
  show containsSub "already exists" ("File " ++ fn ++ " already exists") = true
  unfold containsSub
  rw [String.append_assoc, String.data_append]
  exact dropAfterFirst_append_isSome "already exists".data
    (" already exists").data (by decide) ("File " ++ fn).data

theorem create_file_existing_unchanged_witness :
    fsGet [("a.txt", "x")] "a.txt" = some "x" ∧
    getSuccess (create_file [("a.txt", "x")] "a.txt" "new" none).1 = false ∧
    containsSub "already exists"
      (getErrorMsg (create_file [("a.txt", "x")] "a.txt" "new" none).1) = true ∧
    (create_file [("a.txt", "x")] "a.txt" "new" none).2 = [("a.txt", "x")] :=
  ⟨rfl, create_file_existing_unchanged [("a.txt", "x")] "a.txt" "new" "x" none rfl⟩

/-! ## Fallback labeling of the external-API tools -/

/-- **C3.** Fallback labeling: for both operations with a fallback,
whenever the `try` block raises (an HTTP fault, or a field extraction
failure on a 200 response) the returned result has `success = true`
with a `note` key marking degraded service; and every result the
`try` block produces itself (the live path) that has `success = true`
carries no `note` key, so degraded results are always distinguishable
from genuine live results. -/
theorem fallback_results_always_labeled :
    (∀ city msg, getSuccess (get_weather city (.fault msg)) = true ∧
      hasKey (get_weather city (.fault msg)) "note" = true) ∧
    (∀ city body, weatherFields body = none →
      getSuccess (get_weather city (.response 200 body)) = true ∧
      hasKey (get_weather city (.response 200 body)) "note" = true) ∧
    (∀ city out r, weatherTry out = some r →
      get_weather city out = r ∧
      (getSuccess r = true → hasKey r "note" = false)) ∧
    (∀ msg randIx, getSuccess (get_random_quote (.fault msg) randIx) = true ∧
      hasKey (get_random_quote (.fault msg) randIx) "note" = true) ∧
    (∀ body randIx, quoteFields body = none →
      getSuccess (get_random_quote (.response 200 body) randIx) = true ∧
      hasKey (get_random_quote (.response 200 body) randIx) "note" = true) ∧
    (∀ out r randIx, quoteTry out = some r →
      get_random_quote out randIx = r ∧
      (getSuccess r = true → hasKey r "note" = false)) := by
  refine ⟨fun city msg => ⟨rfl, rfl⟩, ?_, ?_, ?_, ?_, ?_⟩
  · intro city body hw
    have hgw : get_weather city (.response 200 body) = weatherMock city := by
      simp [get_weather, weatherTry, hw]
    rw [hgw]
    exact ⟨rfl, rfl⟩
  · intro city out r htry
    constructor
    · unfold get_weather
      rw [htry]
    · intro hs
      cases out with
      | fault m => simp [weatherTry] at htry
      | response status body =>
        simp only [weatherTry] at htry
        split at htry
        · rcases Option.map_eq_some'.mp htry with ⟨f, _, hf⟩
          rw [← hf]
          rfl
        · simp only [Option.some.injEq] at htry
          rw [← htry] at hs
          simp [getSuccess, lookupKey] at hs
  · intro msg randIx
    exact ⟨rfl, rfl⟩
  · intro body randIx hq
    have hgq : get_random_quote (.response 200 body) randIx = quoteFallback randIx := by
      simp [get_random_quote, quoteTry, hq]
    rw [hgq]
    exact ⟨rfl, rfl⟩
  · intro out r randIx htry
    constructor
    · unfold get_random_quote
      rw [htry]
    · intro hs
      cases out with
      | fault m => simp [quoteTry] at htry
      | response status body =>
        simp only [quoteTry] at htry
        split at htry
        · rcases Option.map_eq_some'.mp htry with ⟨f, _, hf⟩
          rw [← hf]
          rfl
        · simp only [Option.some.injEq] at htry
          rw [← htry] at hs
          simp [getSuccess, lookupKey] at hs

theorem fallback_results_always_labeled_witness :
    (getSuccess (get_weather "Paris" (.fault "connection refused")) = true ∧
      hasKey (get_weather "Paris" (.fault "connection refused")) "note" = true) ∧
    (getSuccess (get_weather "Paris" (.response 200 (.str "oops"))) = true ∧
      hasKey (get_weather "Paris" (.response 200 (.str "oops"))) "note" = true) ∧
    (get_weather "Paris" (.response 200 (.obj .nil)) =
        weatherLive .null .null .null .null .null .null ∧
      (getSuccess (weatherLive .null .null .null .null .null .null) = true →
        hasKey (weatherLive .null .null .null .null .null .null) "note" = false)) ∧
    (getSuccess (get_random_quote (.fault "connection refused") 0) = true ∧
      hasKey (get_random_quote (.fault "connection refused") 0) "note" = true) ∧
    (getSuccess (get_random_quote (.response 200 (.str "oops")) 0) = true ∧
      hasKey (get_random_quote (.response 200 (.str "oops")) 0) "note" = true) ∧
    (get_random_quote (.response 200 (.obj .nil)) 0 =
        quoteLive .null .null (.arr .nil) ∧
      (getSuccess (quoteLive .null .null (.arr .nil)) = true →
        hasKey (quoteLive .null .null (.arr .nil)) "note" = false)) :=
  ⟨fallback_results_always_labeled.1 "Paris" "connection refused",
   fallback_results_always_labeled.2.1 "Paris" (.str "oops") rfl,
   fallback_results_always_labeled.2.2.1 "Paris" (.response 200 (.obj .nil))
     (weatherLive .null .null .null .null .null .null) rfl,
   fallback_results_always_labeled.2.2.2.1 "connection refused" 0,
   fallback_results_always_labeled.2.2.2.2.1 (.str "oops") 0 rfl,
   fallback_results_always_labeled.2.2.2.2.2 (.response 200 (.obj .nil))
     (quoteLive .null .null (.arr .nil)) 0 rfl⟩

/-! ## The spec-modelled dispatcher: validation and registration -/

/-- When a required parameter is missing, some schema entry is
offending, so validation reports a first offending parameter. -/
theorem firstOffending_of_missing (schema : List ParamSpec) (args : ArgMap) :
    missingRequired schema args = true → ∃ p, firstOffending schema args = some p := by
  induction schema with
  | nil => intro h; simp [missingRequired] at h
  | cons s rest ih =>
    intro h
    rw [firstOffending, List.findSome?_cons]
    cases hv : paramVerdict args s with
    | some p => exact ⟨p, rfl⟩
    | none =>
      have hf : (s.required && (argLookup args s.name).isNone) = false := by
        unfold paramVerdict at hv
        cases ha : argLookup args s.name with
        | none =>
          rw [ha] at hv
          cases hr : s.required with
          | true => rw [hr] at hv; simp at hv
          | false => simp [ha, hr]
        | some v => simp [ha]
      rw [missingRequired, List.any_cons, hf, Bool.false_or] at h
      obtain ⟨p, hp⟩ := ih h
      exact ⟨p, hp⟩

/-- **C4.** Argument validation precedes execution: whenever the
request resolves to a descriptor and omits one of its required
parameters, `invoke` returns `success = false` with
`error.kind = "invalid_arguments"` naming the first offending
parameter; the returned Envelope is the handler-free
`errEnvelope "invalid_arguments" ...`, so neither the handler nor the
fallback is executed. -/
theorem invoke_validates_before_execution (reg : Registry) (req : Request)
    (d : Descriptor)
    (hfind : lookupDescr reg req.operation = some d)
    (hmiss : missingRequired d.parameterSchema req.arguments = true) :
    ∃ p, firstOffending d.parameterSchema req.arguments = some p ∧
      invoke reg req = errEnvelope "invalid_arguments" ("Invalid argument: " ++ p) := by
  obtain ⟨p, hp⟩ := firstOffending_of_missing d.parameterSchema req.arguments hmiss
  refine ⟨p, hp, ?_⟩
  simp only [invoke, hfind, hp]

theorem invoke_validates_before_execution_witness :
    ∃ p, firstOffending echoDescr.parameterSchema [] = some p ∧
      invoke [echoDescr] { operation := "echo", arguments := [] } =
        errEnvelope "invalid_arguments" ("Invalid argument: " ++ p) :=
  invoke_validates_before_execution [echoDescr]
    { operation := "echo", arguments := [] } echoDescr rfl rfl

/-- **C5.** Registration atomicity: if registering `d` into `reg`
succeeds producing `reg2`, then registering any second descriptor with
the same name fails with `duplicate_capability` and returns the
mapping `reg2` exactly as it was (no partial insert). -/
theorem register_duplicate_unchanged (reg reg2 : Registry) (d d2 : Descriptor)
    (hname : d2.name = d.name)
    (hreg : register reg d = (reg2, none)) :
    register reg2 d2 = (reg2, some .duplicateCapability) := by
  unfold register at hreg
  split at hreg
  · simp at hreg
  · have h2 : reg2 = reg ++ [d] := (congrArg Prod.fst hreg).symm
    subst h2
    have hany : ((reg ++ [d]).any fun d0 => d0.name == d2.name) = true := by
      rw [List.any_append, Bool.or_eq_true]
      right
      simp [hname]
    rw [register, if_pos hany]

theorem register_duplicate_unchanged_witness :
    register [echoDescr] echoDescr = ([echoDescr], some .duplicateCapability) :=
  register_duplicate_unchanged [] [echoDescr] echoDescr echoDescr rfl rfl

/-! ## The static server-info catalog -/

set_option maxRecDepth 8192 in
/-- **C10.** The static server-info resource names all seven registered
operations — `create_file`, `read_file`, `list_files`, `delete_file`,
`get_weather`, `get_random_quote`, `process_json_data` — each occurring
in the page after the previous one, i.e. in the order the
`@mcp.tool()` registrations appear in the source. -/
theorem server_info_catalog_complete :
    registeredTools.length = 7 ∧
    namesInOrder registeredTools
      (get_server_info "mcp_workspace" "2025-01-01T00:00:00").data = true :=
  ⟨rfl, by decide⟩

end Mcp
